import Mathlib

/-
Verification of the PHYS_481 cellular-automaton repository
(src/Assignments/Assignment3: game_of_life.py, steppers.py, random_ca.py).

The Python code is shallowly embedded: numpy grids become functions
on Fin-indexed coordinates, the 1-D automaton state becomes lists,
Python exceptions become an Except monad, and in-place array mutation
(where a claim is about it) becomes explicit store passing.
-/

namespace PHYS481

set_option maxRecDepth 100000

/-- Python exception kinds raised by the embedded code: numpy's
ValueError for negative array dimensions, AssertionError from the
asserts in binaryRep, IndexError from indexing an empty axis, and
KeyError from a failed dict lookup in rules1. -/
inductive PyErr where
  | valueError
  | assertionError
  | indexError
  | keyError
deriving DecidableEq

/-- A 2-D numpy grid of shape nx x ny holding cell values, embedded as a
function of row and column index. -/
abbrev Grid (nx ny : Nat) : Type := Fin nx → Fin ny → Nat

/-- Python's modular index arithmetic (x + d) % n for a toroidal grid:
the source computes it with numpy's % operator, which on a positive
modulus always lands in the interval from 0 to n-1, also for a negative
numerator such as 0 - 1. -/
def wrapAdd {n : Nat} (x : Fin n) (d : Int) : Fin n :=
  ⟨(((x : Int) + d) % (n : Int)).toNat, by
    have hn : 0 < (n : Int) := by exact_mod_cast x.pos
    have h1 : 0 ≤ ((x : Int) + d) % (n : Int) := Int.emod_nonneg _ (by omega)
    have h2 : ((x : Int) + d) % (n : Int) < (n : Int) := Int.emod_lt_of_pos _ hn
    omega⟩

/-- Neighbor offsets in the order used by game_of_life.py's
step tables (xx = [x+1, x-1, x+0, x+0, x+1, x-1, x+1, x-1],
yy = [y+0, y+0, y+1, y-1, y+1, y-1, y-1, y+1]), which is also the
order of stepper1's dx/dy arrays, stepper3's dxy list and stepper4's
xx/yy tables. -/
def gol_offsets : List (Int × Int) :=
  [(1, 0), (-1, 0), (0, 1), (0, -1), (1, 1), (-1, -1), (1, -1), (-1, 1)]

/-- Neighbor offsets in the order of the nested dx/dy loops of stepper0
and stepper2 (dx outer, dy inner, both over [-1,0,1], skipping (0,0)). -/
def loop_offsets : List (Int × Int) :=
  [(-1, -1), (-1, 0), (-1, 1), (0, -1), (0, 1), (1, -1), (1, 0), (1, 1)]

/-- Count of live cells among the 8 toroidal neighbors of (x, y): the
sum of the grid values at the wrapped neighbor positions given by the
offset list (nnear in every stepper). -/
def nnearWith (offs : List (Int × Int)) {nx ny : Nat} (g : Grid nx ny)
    (x : Fin nx) (y : Fin ny) : Nat :=
  (offs.map fun d => g (wrapAdd x d.1) (wrapAdd y d.2)).sum

/-- Numpy boolean-mask assignment grid[mask] = v: every position where
the mask holds receives v, every other position keeps its value. -/
def gridMaskAssign {nx ny : Nat} (g : Grid nx ny)
    (mask : Fin nx → Fin ny → Bool) (v : Nat) : Grid nx ny :=
  fun x y => if mask x y then v else g x y

/-- One internal iteration of GameOfLife.step (game_of_life.py lines
79-86): nnear = sum of the 8 wrapped neighbor values of the pre-step
grid, then sequentially grid[(nnear < 2) | (nnear > 3)] = 0 and
grid[nnear == 3] = 1, both masks computed from the pre-step counts. -/
def lifeStep {nx ny : Nat} (g : Grid nx ny) : Grid nx ny :=
  let nnear := fun x y => nnearWith gol_offsets g x y
  let g1 := gridMaskAssign g
    (fun x y => decide (nnear x y < 2) || decide (3 < nnear x y)) 0
  gridMaskAssign g1 (fun x y => nnear x y == 3) 1

/-- GameOfLife.step's value semantics: the grid copy is updated in place
nsteps times by the internal iteration, with the neighbor counts of each
iteration taken from the result of the previous one. -/
def gol_step {nx ny : Nat} (g : Grid nx ny) (nsteps : Nat) : Grid nx ny :=
  Nat.iterate lifeStep nsteps g

/-- stepper0 (steppers.py lines 15-52): per-cell loops; newgrid starts
as a copy of grid; a dead cell with nnear == 3 becomes 1; a live cell
with nnear < 2 or with nnear > 3 becomes 0; every other cell keeps its
value. The nsteps and plot parameters are never read. All reads come
from the unmodified input grid, so each output cell is the pure function
of the input written here. -/
def stepper0 {nx ny : Nat} (grid : Grid nx ny) (nsteps : Nat)
    (plot : Option Unit) : Grid nx ny :=
  fun x y =>
    let nnear := nnearWith loop_offsets grid x y
    if grid x y = 0 then
      if nnear = 3 then 1 else grid x y
    else
      if nnear < 2 then 0
      else if 3 < nnear then 0
      else grid x y

/-- stepper1 (steppers.py lines 55-86): per-cell loop with vectorized
neighbor gather in gol_offsets order; if nnear < 2 or nnear > 3 the
cell becomes 0, elif nnear == 3 it becomes 1, else it keeps its value.
The nsteps and plot parameters are never read. -/
def stepper1 {nx ny : Nat} (grid : Grid nx ny) (nsteps : Nat)
    (plot : Option Unit) : Grid nx ny :=
  fun x y =>
    let nnear := nnearWith gol_offsets grid x y
    if nnear < 2 ∨ 3 < nnear then 0
    else if nnear = 3 then 1
    else grid x y

/-- stepper2 (steppers.py lines 89-119): nnear accumulated over the
dx/dy loops (loop_offsets order), then three sequential mask
assignments on the copy newgrid: newgrid[(grid>0)&(nnear<2)] = 0,
newgrid[(grid>0)&(nnear>3)] = 0, newgrid[(grid==0)&(nnear==3)] = 1.
The nsteps and plot parameters are never read. -/
def stepper2 {nx ny : Nat} (grid : Grid nx ny) (nsteps : Nat)
    (plot : Option Unit) : Grid nx ny :=
  let nnear := fun x y => nnearWith loop_offsets grid x y
  let g1 := gridMaskAssign grid
    (fun x y => decide (0 < grid x y) && decide (nnear x y < 2)) 0
  let g2 := gridMaskAssign g1
    (fun x y => decide (0 < grid x y) && decide (3 < nnear x y)) 0
  gridMaskAssign g2
    (fun x y => decide (grid x y = 0) && (nnear x y == 3)) 1

/-- stepper3 (steppers.py lines 122-152): nnear accumulated over the
dxy tuple list (gol_offsets order), then three sequential mask
assignments on the copy newgrid: newgrid[nnear < 2] = 0,
newgrid[nnear > 3] = 0, newgrid[nnear == 3] = 1. The nsteps and plot
parameters are never read. -/
def stepper3 {nx ny : Nat} (grid : Grid nx ny) (nsteps : Nat)
    (plot : Option Unit) : Grid nx ny :=
  let nnear := fun x y => nnearWith gol_offsets grid x y
  let g1 := gridMaskAssign grid (fun x y => decide (nnear x y < 2)) 0
  let g2 := gridMaskAssign g1 (fun x y => decide (3 < nnear x y)) 0
  gridMaskAssign g2 (fun x y => nnear x y == 3) 1

/-- stepper4 (steppers.py lines 155-181), value semantics: nnear is
computed wholly from the input values via the precomputed wrapped index
tables, then grid[(nnear < 2) | (nnear > 3)] = 0 and grid[nnear == 3]
= 1 are applied in place; since both masks and nnear are fixed before
the writes, the resulting values are this pure function of the input.
The nsteps and plot parameters are never read. -/
def stepper4 {nx ny : Nat} (grid : Grid nx ny) (nsteps : Nat)
    (plot : Option Unit) : Grid nx ny :=
  let nnear := fun x y => nnearWith gol_offsets grid x y
  let g1 := gridMaskAssign grid
    (fun x y => decide (nnear x y < 2) || decide (3 < nnear x y)) 0
  gridMaskAssign g1 (fun x y => nnear x y == 3) 1

/-- The two neighbor-offset orders enumerate the same 8 offsets, so the
neighbor counts agree. -/
lemma nnearWith_loop_eq_gol {nx ny : Nat} (g : Grid nx ny)
    (x : Fin nx) (y : Fin ny) :
    nnearWith loop_offsets g x y = nnearWith gol_offsets g x y := by
  simp only [nnearWith, loop_offsets, gol_offsets, List.map_cons,
    List.map_nil, List.sum_cons, List.sum_nil]
  omega

/-- A grid whose values all lie in 0/1 keeps that property under nnear
being a sum of at most 8 such values; key pointwise description of
lifeStep. -/
lemma lifeStep_apply {nx ny : Nat} (g : Grid nx ny) (x : Fin nx) (y : Fin ny) :
    lifeStep g x y =
      (if nnearWith gol_offsets g x y == 3 then 1
       else if decide (nnearWith gol_offsets g x y < 2)
              || decide (3 < nnearWith gol_offsets g x y) then 0
       else g x y) := by
  simp only [lifeStep, gridMaskAssign]

/-- A 3 x 3 blinker grid used as a concrete evaluation input. -/
def wgrid : Grid 3 3 := fun _x y => if y.val = 1 then 1 else 0

/-- C1: for every grid with cell values in 0/1, one generation of
GameOfLife.step computes for each cell the count of live cells among
its 8 toroidal neighbors from the pre-step grid, and the new state of
a cell is 1 iff its neighbor count is exactly 3, or the cell was alive
and its neighbor count is exactly 2; the neighbor counts are all taken
from the single pre-step snapshot g, so no new state influences
another in the same generation. -/
theorem C1_step_rule {nx ny : Nat} (g : Grid nx ny)
    (hv : ∀ x y, g x y = 0 ∨ g x y = 1) (x : Fin nx) (y : Fin ny) :
    (lifeStep g x y = 1 ↔
      (nnearWith gol_offsets g x y = 3 ∨
        (g x y = 1 ∧ nnearWith gol_offsets g x y = 2)))
    ∧ (lifeStep g x y = 0 ∨ lifeStep g x y = 1) := by
  have h := hv x y
  rw [lifeStep_apply]
  simp only [beq_iff_eq, Bool.or_eq_true, decide_eq_true_eq]
  split_ifs <;> constructor <;> simp_all <;> omega

/-- C1 witness: the rule evaluated on the blinker at cell (0,1). -/
theorem C1_witness :
    (lifeStep wgrid 0 1 = 1 ↔
      (nnearWith gol_offsets wgrid 0 1 = 3 ∨
        (wgrid 0 1 = 1 ∧ nnearWith gol_offsets wgrid 0 1 = 2)))
    ∧ (lifeStep wgrid 0 1 = 0 ∨ lifeStep wgrid 0 1 = 1) :=
  C1_step_rule wgrid (by decide) 0 1

/-- Pointwise agreement of stepper0 with the internal iteration of
GameOfLife.step on 0/1 grids. -/
lemma stepper0_eq_lifeStep {nx ny : Nat} (g : Grid nx ny)
    (hv : ∀ x y, g x y = 0 ∨ g x y = 1) :
    stepper0 g 1 none = lifeStep g := by
  funext x y
  have h := hv x y
  rw [lifeStep_apply]
  simp only [stepper0, nnearWith_loop_eq_gol, beq_iff_eq,
    Bool.or_eq_true, decide_eq_true_eq]
  split_ifs <;> omega

/-- Pointwise agreement of stepper1 with the internal iteration of
GameOfLife.step on 0/1 grids. -/
lemma stepper1_eq_lifeStep {nx ny : Nat} (g : Grid nx ny)
    (hv : ∀ x y, g x y = 0 ∨ g x y = 1) :
    stepper1 g 1 none = lifeStep g := by
  funext x y
  have h := hv x y
  rw [lifeStep_apply]
  simp only [stepper1, beq_iff_eq, Bool.or_eq_true, decide_eq_true_eq]
  split_ifs <;> omega

/-- Pointwise agreement of stepper2 with the internal iteration of
GameOfLife.step on 0/1 grids. -/
lemma stepper2_eq_lifeStep {nx ny : Nat} (g : Grid nx ny)
    (hv : ∀ x y, g x y = 0 ∨ g x y = 1) :
    stepper2 g 1 none = lifeStep g := by
  funext x y
  have h := hv x y
  rw [lifeStep_apply]
  simp only [stepper2, gridMaskAssign, nnearWith_loop_eq_gol, beq_iff_eq,
    Bool.or_eq_true, Bool.and_eq_true, decide_eq_true_eq]
  split_ifs <;> omega

/-- Pointwise agreement of stepper3 with the internal iteration of
GameOfLife.step on 0/1 grids. -/
lemma stepper3_eq_lifeStep {nx ny : Nat} (g : Grid nx ny)
    (hv : ∀ x y, g x y = 0 ∨ g x y = 1) :
    stepper3 g 1 none = lifeStep g := by
  funext x y
  have h := hv x y
  rw [lifeStep_apply]
  simp only [stepper3, gridMaskAssign, beq_iff_eq,
    Bool.or_eq_true, decide_eq_true_eq]
  split_ifs <;> omega

/-- Agreement of stepper4 with the internal iteration of
GameOfLife.step: the value computation is identical. -/
lemma stepper4_eq_lifeStep {nx ny : Nat} (g : Grid nx ny) :
    stepper4 g 1 none = lifeStep g := rfl

/-- C2: for every grid with cell values in 0/1, the five step variants
stepper0 .. stepper4 and a single internal iteration of GameOfLife.step
(gol_step with nsteps = 1) all return the same next-generation grid. -/
theorem C2_steppers_agree {nx ny : Nat} (g : Grid nx ny)
    (hv : ∀ x y, g x y = 0 ∨ g x y = 1) :
    stepper0 g 1 none = lifeStep g ∧
    stepper1 g 1 none = lifeStep g ∧
    stepper2 g 1 none = lifeStep g ∧
    stepper3 g 1 none = lifeStep g ∧
    stepper4 g 1 none = lifeStep g ∧
    gol_step g 1 = lifeStep g :=
  ⟨stepper0_eq_lifeStep g hv, stepper1_eq_lifeStep g hv,
   stepper2_eq_lifeStep g hv, stepper3_eq_lifeStep g hv,
   stepper4_eq_lifeStep g, rfl⟩

/-- C2 witness: all variants agree on the concrete blinker grid. -/
theorem C2_witness :
    stepper0 wgrid 1 none = lifeStep wgrid ∧
    stepper1 wgrid 1 none = lifeStep wgrid ∧
    stepper2 wgrid 1 none = lifeStep wgrid ∧
    stepper3 wgrid 1 none = lifeStep wgrid ∧
    stepper4 wgrid 1 none = lifeStep wgrid ∧
    gol_step wgrid 1 = lifeStep wgrid :=
  C2_steppers_agree wgrid (by decide)

/-- C9: for every stepper function and every value of the nsteps and
plot arguments, a single call advances the grid by exactly one
generation; the nsteps and plot parameters have no effect on the
result, since no stepper body ever reads them. -/
theorem C9_stepper_args_ignored {nx ny : Nat} (g : Grid nx ny)
    (n n' : Nat) (p p' : Option Unit) :
    stepper0 g n p = stepper0 g n' p' ∧
    stepper1 g n p = stepper1 g n' p' ∧
    stepper2 g n p = stepper2 g n' p' ∧
    stepper3 g n p = stepper3 g n' p' ∧
    stepper4 g n p = stepper4 g n' p' ∧
    stepper0 g n p = stepper0 g 1 none ∧
    stepper1 g n p = stepper1 g 1 none ∧
    stepper2 g n p = stepper2 g 1 none ∧
    stepper3 g n p = stepper3 g 1 none ∧
    stepper4 g n p = stepper4 g 1 none :=
  ⟨rfl, rfl, rfl, rfl, rfl, rfl, rfl, rfl, rfl, rfl⟩

/-- Little-endian binary digits of n, as produced by repeatedly taking
n % 2 and n / 2; the first argument is recursion fuel (n itself always
suffices since n / 2 halves at every step). Models the digit content of
Python's bin(n). -/
def binLEAux : Nat → Nat → List Nat
  | 0, _ => []
  | _ + 1, 0 => []
  | fuel + 1, n + 1 => ((n + 1) % 2) :: binLEAux fuel ((n + 1) / 2)

/-- Python's bin(n)[2:]: the big-endian binary digit string of n, which
is the single digit 0 when n = 0. -/
def binStr (n : Nat) : List Nat :=
  if n = 0 then [0] else (binLEAux n n).reverse

/-- Python's str.zfill applied to a digit list: pad on the left with
zeros up to width w (no truncation if already longer). -/
def zfill (l : List Nat) (w : Nat) : List Nat :=
  List.replicate (w - l.length) 0 ++ l

/-- binaryRep (random_ca.py lines 144-170): asserts num >= 0, asserts
num is an integer (always true of an Int value, so the num % 1 == 0
assert cannot fire in this embedding), asserts num <= 2^num_bits - 1,
and returns bin(num)[2:].zfill(num_bits) as a digit sequence. -/
def binaryRep (num : Int) (num_bits : Nat) : Except PyErr (List Nat) :=
  if num < 0 then .error .assertionError
  else if (2 : Int) ^ num_bits - 1 < num then .error .assertionError
  else .ok (zfill (binStr num.toNat) num_bits)

/-- Re-interpretation of a big-endian 0/1 digit sequence as a base-2
integer. -/
def fromBits (l : List Nat) : Nat :=
  l.foldl (fun acc b => 2 * acc + b) 0

/-- The truple list of rules1 (random_ca.py line 128) paired with the
ruleset index each state is associated to by the zip(range(8), truple)
loop that builds lookup_dict. -/
def truple : List ((Nat × Nat × Nat) × Nat) :=
  [((1, 1, 1), 0), ((1, 1, 0), 1), ((1, 0, 1), 2), ((1, 0, 0), 3),
   ((0, 1, 1), 4), ((0, 1, 0), 5), ((0, 0, 1), 6), ((0, 0, 0), 7)]

/-- rules1 (random_ca.py lines 118-139): decode the rule number to the
8-bit ruleset (asserting it is a valid 8-bit value), then look the
state triple (a, b, c) up in the dict built from truple; a triple
absent from the dict (cell values outside 0/1) is a KeyError. -/
def rules1 (rule_num : Int) (a b c : Nat) : Except PyErr Nat :=
  match binaryRep rule_num 8 with
  | .error e => .error e
  | .ok ruleset =>
    match truple.lookup (a, b, c) with
    | some idx => .ok (ruleset.getD idx 0)
    | none => .error .keyError

/-- Interior index test of the cellular_step loop, which runs over
range(1, ncells - 1): index i is visited iff 1 <= i and i + 1 < ncells. -/
def interiorIdx (ncells i : Nat) : Bool :=
  decide (1 ≤ i) && decide (i + 1 < ncells)

/-- The value of a successful Except computation, with a default for
the error case. -/
def exceptGetD : Except PyErr Nat → Nat → Nat
  | .ok a, _ => a
  | .error _, d => d

/-- The first exception raised by the rules1 calls of the
cellular_step loop, in loop order, if any. -/
def firstRuleErr (rule_num : Int) (cells : List Nat) (ncells : Nat) :
    Option PyErr :=
  ((List.range ncells).filter (interiorIdx ncells)).findSome? fun i =>
    match rules1 rule_num (cells.getD (i - 1) 0) (cells.getD i 0)
        (cells.getD (i + 1) 0) with
    | .error e => some e
    | .ok _ => none

/-- cellular_step (random_ca.py lines 97-116), acting on the cells
array: newcells starts as zeros of length ncells; for each interior
index i the loop writes rules1(cells[i-1], cells[i], cells[i+1]) into
newcells[i]; the first exception of a rules1 call aborts the whole
step (before self.cells is reassigned), otherwise the finished
newcells array is returned. -/
def cellular_step (rule_num : Int) (ncells : Nat) (cells : List Nat) :
    Except PyErr (List Nat) :=
  match firstRuleErr rule_num cells ncells with
  | some e => .error e
  | none =>
    .ok ((List.range ncells).map fun i =>
      if interiorIdx ncells i then
        exceptGetD (rules1 rule_num (cells.getD (i - 1) 0)
          (cells.getD i 0) (cells.getD (i + 1) 0)) 0
      else 0)

/-- State of a cellularAutomaton instance: cell count, step count,
rule number, current generation, and the seq history matrix. -/
structure CAState where
  ncells : Nat
  nsteps : Nat
  rule_num : Int
  cells : List Nat
  seq : List (List Nat)
deriving DecidableEq

/-- The row-shift loop of cellularAutomaton.steps: for i in
range(rows - 1), seq[i] = seq[i+1], which drops the first row and
duplicates the last (and leaves an empty seq empty). -/
def shiftUp (seq : List (List Nat)) : List (List Nat) :=
  match seq with
  | [] => []
  | _ :: t => t ++ [seq.getLastD []]

/-- One iteration of the cellularAutomaton.steps loop (random_ca.py
lines 86-93): first the history rows are shifted up in place, then
cellular_step computes the new generation (an exception here leaves
the already-shifted seq and the old cells behind, carried in the error
value), then the new cells are written into the last row of seq
(an empty seq makes that indexing an IndexError). -/
def ca_step1 (s : CAState) : Except (PyErr × CAState) CAState :=
  match cellular_step s.rule_num s.ncells s.cells with
  | .error e => .error (e, { s with seq := shiftUp s.seq })
  | .ok newcells =>
    if (shiftUp s.seq).isEmpty then
      .error (.indexError, { s with seq := shiftUp s.seq, cells := newcells })
    else
      .ok { s with cells := newcells,
                   seq := (shiftUp s.seq).dropLast ++ [newcells] }

/-- cellularAutomaton.steps(nsteps): the step iteration applied nsteps
times, aborting at the first exception with the state reached so far. -/
def ca_steps (s : CAState) : Nat → Except (PyErr × CAState) CAState
  | 0 => .ok s
  | n + 1 =>
    match ca_step1 s with
    | .error e => .error e
    | .ok s1 => ca_steps s1 n

/-- cellularAutomaton.__init__ (random_ca.py lines 31-58): stores
ncells, nsteps and rule_number without any validation, draws a random
first generation (passed here as the randomCells parameter, the
outcome of np.random.choice([0,1], size=ncells)), and builds seq as an
nsteps x ncells zero matrix whose last row is the first generation;
with nsteps = 0 the assignment seq[-1] on an empty first axis is an
IndexError. -/
def ca_init (ncells nsteps : Nat) (rule_number : Int)
    (randomCells : List Nat) : Except PyErr CAState :=
  if nsteps = 0 then .error .indexError
  else .ok
    { ncells := ncells, nsteps := nsteps, rule_num := rule_number,
      cells := randomCells,
      seq := List.replicate (nsteps - 1) (List.replicate ncells 0)
        ++ [randomCells] }

/-- Whether an embedded Python computation completed without raising. -/
def exceptIsOk {α : Type} : Except PyErr α → Bool
  | .ok _ => true
  | .error _ => false

/-- Round-trip of the 8-bit decoding for every value 0 .. 255: the
digit list has length 8, holds only 0/1 digits, and re-reads in base 2
to the original value. Established by exhaustive evaluation. -/
lemma binaryRep_roundtrip_fin :
    ∀ n : Fin 256,
      (zfill (binStr n.val) 8).length = 8 ∧
      (∀ b ∈ zfill (binStr n.val) 8, b = 0 ∨ b = 1) ∧
      fromBits (zfill (binStr n.val) 8) = n.val := by decide

/-- C6: for every integer r in 0 .. 255, decoding r with binaryRep at
8 bits yields an 8-element big-endian sequence of 0/1 digits whose
base-2 value is r again; and binaryRep fails (with its assertions)
exactly when its number argument is negative or exceeds
2 ^ bit_width - 1 (the non-integrality assert num % 1 == 0 can never
fire on an integer argument, the only kind this embedding admits). -/
theorem C6_binaryRep_roundtrip :
    (∀ r : Int, 0 ≤ r → r ≤ 255 →
      ∃ bits, binaryRep r 8 = .ok bits ∧ bits.length = 8 ∧
        (∀ b ∈ bits, b = 0 ∨ b = 1) ∧ (fromBits bits : Int) = r) ∧
    (∀ (num : Int) (w : Nat),
      exceptIsOk (binaryRep num w) = false ↔
        (num < 0 ∨ (2 : Int) ^ w - 1 < num)) := by
  constructor
  · intro r h0 h255
    have h2 : (2 : Int) ^ (8 : Nat) = 256 := by norm_num
    have hfin := binaryRep_roundtrip_fin ⟨r.toNat, by omega⟩
    refine ⟨zfill (binStr r.toNat) 8, ?_, hfin.1, hfin.2.1, ?_⟩
    · unfold binaryRep
      rw [if_neg (by omega), if_neg (by omega)]
    · rw [hfin.2.2]
      exact Int.toNat_of_nonneg h0
  · intro num w
    unfold binaryRep
    split_ifs with h1 h2 <;> simp [exceptIsOk] <;> omega

/-- C6 witness: the decode of rule number 30. -/
theorem C6_witness :
    ∃ bits, binaryRep 30 8 = .ok bits ∧ bits.length = 8 ∧
      (∀ b ∈ bits, b = 0 ∨ b = 1) ∧ (fromBits bits : Int) = 30 :=
  C6_binaryRep_roundtrip.1 30 (by omega) (by omega)

/-- C4 counterexample: constructing a Line Automaton with the invalid
rule number -1 succeeds, contradicting the claim that construction
fails with InvalidRule for rule numbers outside 0 .. 255 (no
validation of rule_number exists in cellularAutomaton's constructor). -/
theorem C4_counterexample :
    ca_init 3 2 (-1) [0, 1, 0]
      = .ok ⟨3, 2, -1, [0, 1, 0], [[0, 0, 0], [0, 1, 0]]⟩ := rfl

/-- C4 amended: the Line Automaton constructor performs no rule
validation at all: for every rule_number whatsoever (valid or not)
and every positive generation count, construction succeeds and merely
stores the rule number; the rule is first examined (and an invalid one
first raises) inside steps, via binaryRep's assertions in rules1. -/
theorem C4_no_rule_validation (ncells nsteps : Nat) (rule_number : Int)
    (randomCells : List Nat) (h : 1 ≤ nsteps) :
    ∃ s, ca_init ncells nsteps rule_number randomCells = .ok s ∧
      s.rule_num = rule_number := by
  unfold ca_init
  rw [if_neg (by omega)]
  exact ⟨_, rfl, rfl⟩

/-- C4 witness: construction with the in-range rule number 30. -/
theorem C4_witness :
    ∃ s, ca_init 5 4 30 [0, 1, 1, 0, 1] = .ok s ∧ s.rule_num = 30 :=
  C4_no_rule_validation 5 4 30 [0, 1, 1, 0, 1] (by omega)

/-- C5 counterexample: a steps call that fails on an invalid rule
number leaves the history matrix changed: starting from history
[[1,1,1],[0,1,0]] with rule -1, the failing call leaves history
[[0,1,0],[0,1,0]] behind (rows already shifted up), which differs
from the history before the call. -/
theorem C5_counterexample :
    ca_steps ⟨3, 2, -1, [0, 1, 0], [[1, 1, 1], [0, 1, 0]]⟩ 1
      = .error (.assertionError,
          ⟨3, 2, -1, [0, 1, 0], [[0, 1, 0], [0, 1, 0]]⟩)
    ∧ ([[0, 1, 0], [0, 1, 0]] : List (List Nat)) ≠ [[1, 1, 1], [0, 1, 0]] :=
  ⟨rfl, by decide⟩

/-- C5 amended: when a step of cellularAutomaton.steps fails because
cellular_step raises (in particular for an invalid rule number), the
failing call leaves current_generation unchanged but the history
matrix already shifted up one row (oldest row discarded, last row
duplicated) — the claim that the history is unchanged by the failing
call holds only when that shift is the identity. -/
theorem C5_failing_step_shifts_history (s : CAState) (e : PyErr)
    (herr : cellular_step s.rule_num s.ncells s.cells = .error e) :
    ca_step1 s = .error (e, { s with seq := shiftUp s.seq }) := by
  unfold ca_step1
  rw [herr]

/-- C5 witness: the failing step evaluated on the counterexample
state. -/
theorem C5_witness :
    ca_step1 ⟨3, 2, -1, [0, 1, 0], [[1, 1, 1], [0, 1, 0]]⟩
      = .error (.assertionError,
          { (⟨3, 2, -1, [0, 1, 0], [[1, 1, 1], [0, 1, 0]]⟩ : CAState) with
            seq := shiftUp [[1, 1, 1], [0, 1, 0]] }) :=
  C5_failing_step_shifts_history
    ⟨3, 2, -1, [0, 1, 0], [[1, 1, 1], [0, 1, 0]]⟩ .assertionError rfl

/-- A successful cellular_step call returns a list of length ncells
whose entries at non-interior indices are the zeros that newcells was
initialized with. -/
lemma cellular_step_ok_spec (rule_num : Int) (ncells : Nat)
    (cells out : List Nat)
    (h : cellular_step rule_num ncells cells = .ok out) :
    out.length = ncells ∧
    ∀ i, i < ncells → interiorIdx ncells i = false → out.getD i 0 = 0 := by
  unfold cellular_step at h
  cases hfe : firstRuleErr rule_num cells ncells with
  | some e => rw [hfe] at h; cases h
  | none =>
    rw [hfe] at h
    injection h with h
    subst h
    refine ⟨by simp, ?_⟩
    intro i hi hint
    rw [List.getD_eq_getElem?_getD, List.getElem?_map,
      List.getElem?_range hi]
    simp [hint]

/-- A successful cellular_step call leaves zeros at index 0 and index
ncells - 1 of the result. -/
lemma cellular_step_boundary (rule_num : Int) (ncells : Nat)
    (cells out : List Nat)
    (h : cellular_step rule_num ncells cells = .ok out) :
    out.length = ncells ∧ out.getD 0 0 = 0 ∧ out.getD (ncells - 1) 0 = 0 := by
  obtain ⟨hlen, hbound⟩ := cellular_step_ok_spec rule_num ncells cells out h
  rcases Nat.eq_zero_or_pos ncells with h0 | hpos
  · have hnil : out = [] := List.length_eq_zero.mp (by omega)
    subst hnil
    simp [h0]
  · refine ⟨hlen, ?_, ?_⟩
    · exact hbound 0 hpos (by simp [interiorIdx])
    · exact hbound (ncells - 1) (by omega)
        (by simp [interiorIdx]; omega)

/-- A successful iteration of the steps loop keeps ncells and sets the
current generation to the cellular_step result. -/
lemma ca_step1_ok_spec (s t : CAState) (h : ca_step1 s = .ok t) :
    t.ncells = s.ncells ∧
    ∃ out, cellular_step s.rule_num s.ncells s.cells = .ok out ∧
      t.cells = out := by
  unfold ca_step1 at h
  cases hc : cellular_step s.rule_num s.ncells s.cells with
  | error e => rw [hc] at h; cases h
  | ok newcells =>
    rw [hc] at h
    by_cases he : (shiftUp s.seq).isEmpty
    · simp [he] at h
    · simp only [he, if_false, Bool.false_eq_true] at h
      injection h with h
      subst h
      exact ⟨rfl, newcells, rfl, rfl⟩

/-- C7: for every Line Automaton state and every number of steps
n >= 1, after a successful steps(n) call the cells at index 0 and at
index ncells - 1 of the current generation are 0, and since this holds
after every successful step, they remain 0 after every subsequent
step (the rule table is applied only to interior indices). -/
theorem C7_boundary_zero (s : CAState) (n : Nat) (hn : 1 ≤ n)
    (s' : CAState) (h : ca_steps s n = .ok s') :
    s'.cells.length = s'.ncells ∧
    s'.cells.getD 0 0 = 0 ∧
    s'.cells.getD (s'.ncells - 1) 0 = 0 := by
  induction n generalizing s with
  | zero => omega
  | succ n ih =>
    simp only [ca_steps] at h
    cases hstep : ca_step1 s with
    | error e => rw [hstep] at h; cases h
    | ok s1 =>
      rw [hstep] at h
      rcases Nat.eq_zero_or_pos n with h0 | hpos
      · subst h0
        simp only [ca_steps] at h
        injection h with h
        subst h
        obtain ⟨hnc, out, hout, hcells⟩ := ca_step1_ok_spec s s1 hstep
        obtain ⟨hlen, hz0, hz1⟩ :=
          cellular_step_boundary s.rule_num s.ncells s.cells out hout
        rw [hcells, hnc]
        exact ⟨hlen, hz0, hz1⟩
      · exact ih s1 hpos h

/-- C7 witness: one step of rule 30 from the all-ones generation of a
3-cell automaton ends in [0, 0, 0], with zeros at both boundary
indices. -/
theorem C7_witness :
    (⟨3, 2, 30, [0, 0, 0], [[1, 1, 1], [0, 0, 0]]⟩ : CAState).cells.length
        = (⟨3, 2, 30, [0, 0, 0], [[1, 1, 1], [0, 0, 0]]⟩ : CAState).ncells ∧
    (⟨3, 2, 30, [0, 0, 0], [[1, 1, 1], [0, 0, 0]]⟩ : CAState).cells.getD 0 0
        = 0 ∧
    (⟨3, 2, 30, [0, 0, 0], [[1, 1, 1], [0, 0, 0]]⟩ : CAState).cells.getD
        ((⟨3, 2, 30, [0, 0, 0], [[1, 1, 1], [0, 0, 0]]⟩ : CAState).ncells - 1)
        0 = 0 :=
  C7_boundary_zero ⟨3, 2, 30, [1, 1, 1], [[0, 0, 0], [1, 1, 1]]⟩ 1
    (by omega) _ rfl

/-- Dimensions stored by a successful GameOfLife construction with no
initial grid. -/
structure GOLDims where
  nx : Nat
  ny : Nat
deriving DecidableEq

/-- GameOfLife.__init__ (game_of_life.py lines 19-38) on the grid=None
path: the constructor contains no dimension validation of its own; its
body runs np.zeros([nx, ny]), which numpy rejects with ValueError
exactly when a dimension is negative, and then __init__step, whose
meshgrid and modulo arithmetic raise nothing (when nx or ny is 0 the
index arrays are empty, so the modulo by 0 processes no element). -/
def gameOfLife_init_nogrid (nx ny : Int) : Except PyErr GOLDims :=
  if nx < 0 ∨ ny < 0 then .error .valueError
  else .ok ⟨nx.toNat, ny.toNat⟩

/-- C3 counterexample: constructing a GameOfLife with width 0 and no
initial grid succeeds, contradicting the claim that construction with
width <= 0 fails with InvalidDimension (no dimension validation exists
in the constructor). -/
theorem C3_counterexample :
    gameOfLife_init_nogrid 0 10 = .ok ⟨0, 10⟩ := rfl

/-- C3 amended: GameOfLife's constructor never raises an
InvalidDimension error of its own; with no initial grid it succeeds
exactly when both dimensions are nonnegative (negative dimensions are
rejected by numpy's ValueError in np.zeros), so width = 0 succeeds,
height = -1 raises ValueError, and positive dimensions succeed. -/
theorem C3_no_dimension_validation (nx ny : Int) :
    (∃ d, gameOfLife_init_nogrid nx ny = .ok d) ↔ (0 ≤ nx ∧ 0 ≤ ny) := by
  unfold gameOfLife_init_nogrid
  split_ifs with h
  · constructor
    · rintro ⟨d, hd⟩
      cases hd
    · intro hc
      omega
  · constructor
    · intro _
      omega
    · intro _
      exact ⟨_, rfl⟩

/-- The precomputed neighbor row-index table step_x built by
GameOfLife.__init__step (game_of_life.py lines 40-56): entry [k][i][j]
is (i + dx_k) % nx for the k-th of the 8 offsets, independent of the
column j. -/
def gol_step_x (nx ny : Nat) : List (List (List Int)) :=
  gol_offsets.map fun d =>
    (List.range nx).map fun i =>
      (List.range ny).map fun _j => ((i : Int) + d.1) % (nx : Int)

/-- The precomputed neighbor column-index table step_y built by
GameOfLife.__init__step: entry [k][i][j] is (j + dy_k) % ny for the
k-th of the 8 offsets, independent of the row i. -/
def gol_step_y (nx ny : Nat) : List (List (List Int)) :=
  gol_offsets.map fun d =>
    (List.range nx).map fun _i =>
      (List.range ny).map fun j => ((j : Int) + d.2) % (ny : Int)

/-- C8: for all grid dimensions at least 1, every entry of the
precomputed neighbor index tables step_x and step_y lies within
0 .. nx-1 and 0 .. ny-1 respectively, so the neighbor-gathering
indexing of step stays in range for all 8 offsets. -/
theorem C8_tables_in_range (nx ny : Nat) (hx : 1 ≤ nx) (hy : 1 ≤ ny) :
    (∀ p ∈ gol_step_x nx ny, ∀ r ∈ p, ∀ e ∈ r, 0 ≤ e ∧ e < (nx : Int)) ∧
    (∀ p ∈ gol_step_y nx ny, ∀ r ∈ p, ∀ e ∈ r, 0 ≤ e ∧ e < (ny : Int)) := by
  constructor <;>
  · intro p hp r hr e he
    simp only [gol_step_x, gol_step_y] at hp
    obtain ⟨d, hd, rfl⟩ := List.mem_map.mp hp
    obtain ⟨i, hi, rfl⟩ := List.mem_map.mp hr
    obtain ⟨j, hj, rfl⟩ := List.mem_map.mp he
    exact ⟨Int.emod_nonneg _ (by omega), Int.emod_lt_of_pos _ (by omega)⟩

/-- C8 witness: the entry 1 of the first row block of step_x on a
2 x 2 grid is in range. -/
theorem C8_witness : 0 ≤ (1 : Int) ∧ (1 : Int) < ((2 : Nat) : Int) :=
  (C8_tables_in_range 2 2 (by omega) (by omega)).1
    [[1, 1], [0, 0]] (by decide) [1, 1] (by decide) 1 (by decide)

/-- The all-zero grid, the value numpy's zeros-allocation gives a
fresh array and the default for out-of-store lookups. -/
def gzero (nx ny : Nat) : Grid nx ny := fun _ _ => 0

/-- A store of allocated numpy arrays; an array is referred to by its
index in the store, so aliasing and in-place mutation are explicit. -/
abbrev Store (nx ny : Nat) : Type := List (Grid nx ny)

/-- stepper0 with its allocation behavior: it reads the array named by
g, allocates newgrid = grid.copy() as a fresh store slot (the per-cell
writes of the loop all target that fresh slot, so its final value is
the pure stepper0 result), and returns the fresh slot. -/
def stepper0_store {nx ny : Nat} (σ : Store nx ny) (g : Nat)
    (nsteps : Nat) (plot : Option Unit) : Store nx ny × Nat :=
  (σ ++ [stepper0 (σ.getD g (gzero nx ny)) nsteps plot], σ.length)

/-- stepper1 with its allocation behavior: same shape as stepper0,
with stepper1's update writing the fresh newgrid slot. -/
def stepper1_store {nx ny : Nat} (σ : Store nx ny) (g : Nat)
    (nsteps : Nat) (plot : Option Unit) : Store nx ny × Nat :=
  (σ ++ [stepper1 (σ.getD g (gzero nx ny)) nsteps plot], σ.length)

/-- stepper2 with its allocation behavior: same shape as stepper0,
with stepper2's masked assignments writing the fresh newgrid slot. -/
def stepper2_store {nx ny : Nat} (σ : Store nx ny) (g : Nat)
    (nsteps : Nat) (plot : Option Unit) : Store nx ny × Nat :=
  (σ ++ [stepper2 (σ.getD g (gzero nx ny)) nsteps plot], σ.length)

/-- stepper3 with its allocation behavior: same shape as stepper0,
with stepper3's masked assignments writing the fresh newgrid slot. -/
def stepper3_store {nx ny : Nat} (σ : Store nx ny) (g : Nat)
    (nsteps : Nat) (plot : Option Unit) : Store nx ny × Nat :=
  (σ ++ [stepper3 (σ.getD g (gzero nx ny)) nsteps plot], σ.length)

/-- stepper4 with its mutation behavior (steppers.py lines 155-181):
no copy is made; the two masked assignments write into the caller's
array g itself (the masks and nnear being fixed beforehand, the final
content is the pure stepper4 result), and that same array is
returned. -/
def stepper4_store {nx ny : Nat} (σ : Store nx ny) (g : Nat)
    (nsteps : Nat) (plot : Option Unit) : Store nx ny × Nat :=
  (σ.set g (stepper4 (σ.getD g (gzero nx ny)) nsteps plot), g)

/-- State of a GameOfLife instance over the array store: which store
slot self.grid names, plus the step counter. -/
structure GOLS (nx ny : Nat) where
  store : Store nx ny
  gridId : Nat
  step_num : Nat

/-- GameOfLife.get_grid: returns self.grid, i.e. the array (slot) the
instance currently holds, not a copy. -/
def gol_get_grid {nx ny : Nat} (s : GOLS nx ny) : Nat := s.gridId

/-- GameOfLife.step with its allocation behavior (game_of_life.py
lines 64-89): grid = self.grid.copy() allocates a fresh slot; the
nsteps loop iterations write only into that fresh slot; finally
self.grid is reassigned to it. No pre-existing slot — in particular no
array previously returned by get_grid — is ever written. -/
def gol_step_store {nx ny : Nat} (s : GOLS nx ny) (nsteps : Nat) :
    GOLS nx ny :=
  { store := s.store ++
      [Nat.iterate lifeStep nsteps (s.store.getD s.gridId (gzero nx ny))],
    gridId := s.store.length,
    step_num := s.step_num + 1 }

/-- C10: stepper0 .. stepper3 leave the caller's grid array unchanged
and return the new generation in a freshly allocated array (slot index
equal to the old store length, distinct from the input's, holding the
pure stepper result); stepper4 writes the new generation into the
caller's input array in place and returns that very array; and
GameOfLife.step never mutates any already-allocated array — in
particular none previously returned by get_grid — installing a fresh
array as self.grid instead. -/
theorem C10_mutation_discipline (nx ny : Nat) (σ : Store nx ny) (g : Nat)
    (hg : g < σ.length) (n : Nat) (p : Option Unit) (S : GOLS nx ny)
    (i : Nat) (hi : i < S.store.length) :
    ((stepper0_store σ g n p).1.getD g (gzero nx ny) = σ.getD g (gzero nx ny) ∧
      (stepper0_store σ g n p).2 = σ.length ∧ (stepper0_store σ g n p).2 ≠ g ∧
      (stepper0_store σ g n p).1.getD (stepper0_store σ g n p).2 (gzero nx ny)
        = stepper0 (σ.getD g (gzero nx ny)) n p) ∧
    ((stepper1_store σ g n p).1.getD g (gzero nx ny) = σ.getD g (gzero nx ny) ∧
      (stepper1_store σ g n p).2 = σ.length ∧ (stepper1_store σ g n p).2 ≠ g ∧
      (stepper1_store σ g n p).1.getD (stepper1_store σ g n p).2 (gzero nx ny)
        = stepper1 (σ.getD g (gzero nx ny)) n p) ∧
    ((stepper2_store σ g n p).1.getD g (gzero nx ny) = σ.getD g (gzero nx ny) ∧
      (stepper2_store σ g n p).2 = σ.length ∧ (stepper2_store σ g n p).2 ≠ g ∧
      (stepper2_store σ g n p).1.getD (stepper2_store σ g n p).2 (gzero nx ny)
        = stepper2 (σ.getD g (gzero nx ny)) n p) ∧
    ((stepper3_store σ g n p).1.getD g (gzero nx ny) = σ.getD g (gzero nx ny) ∧
      (stepper3_store σ g n p).2 = σ.length ∧ (stepper3_store σ g n p).2 ≠ g ∧
      (stepper3_store σ g n p).1.getD (stepper3_store σ g n p).2 (gzero nx ny)
        = stepper3 (σ.getD g (gzero nx ny)) n p) ∧
    ((stepper4_store σ g n p).2 = g ∧
      (stepper4_store σ g n p).1.getD g (gzero nx ny)
        = stepper4 (σ.getD g (gzero nx ny)) n p) ∧
    ((gol_step_store S n).store.getD i (gzero nx ny)
        = S.store.getD i (gzero nx ny) ∧
      gol_get_grid (gol_step_store S n) = S.store.length ∧
      (gol_step_store S n).store.getD (gol_get_grid (gol_step_store S n))
          (gzero nx ny)
        = Nat.iterate lifeStep n
            (S.store.getD (gol_get_grid S) (gzero nx ny))) := by
  have happ : ∀ v : Grid nx ny,
      (σ ++ [v]).getD g (gzero nx ny) = σ.getD g (gzero nx ny) :=
    fun v => List.getD_append _ _ _ _ hg
  have hfresh : ∀ (l : List (Grid nx ny)) (v : Grid nx ny),
      (l ++ [v]).getD l.length (gzero nx ny) = v := by
    intro l v
    rw [List.getD_append_right _ _ _ _ (Nat.le_refl _), Nat.sub_self]
    rfl
  have hne : σ.length ≠ g := by omega
  refine ⟨⟨happ _, rfl, hne, hfresh _ _⟩, ⟨happ _, rfl, hne, hfresh _ _⟩,
    ⟨happ _, rfl, hne, hfresh _ _⟩, ⟨happ _, rfl, hne, hfresh _ _⟩,
    ⟨rfl, ?_⟩, ⟨List.getD_append _ _ _ _ hi, rfl, hfresh _ _⟩⟩
  have hgs : g < (σ.set g (stepper4 (σ.getD g (gzero nx ny)) n p)).length := by
    simpa using hg
  show (σ.set g (stepper4 (σ.getD g (gzero nx ny)) n p)).getD g (gzero nx ny)
    = stepper4 (σ.getD g (gzero nx ny)) n p
  rw [List.getD_eq_getElem _ _ hgs]
  exact List.getElem_set_self hgs

/-- C10 witness: the mutation discipline evaluated on a singleton
store holding the 3 x 3 blinker, for both the steppers and a
GameOfLife instance. -/
theorem C10_witness :
    ((stepper0_store [wgrid] 0 1 none).1.getD 0 (gzero 3 3)
        = ([wgrid] : Store 3 3).getD 0 (gzero 3 3) ∧
      (stepper0_store [wgrid] 0 1 none).2 = ([wgrid] : Store 3 3).length ∧
      (stepper0_store [wgrid] 0 1 none).2 ≠ 0 ∧
      (stepper0_store [wgrid] 0 1 none).1.getD
          (stepper0_store [wgrid] 0 1 none).2 (gzero 3 3)
        = stepper0 (([wgrid] : Store 3 3).getD 0 (gzero 3 3)) 1 none) ∧
    ((stepper1_store [wgrid] 0 1 none).1.getD 0 (gzero 3 3)
        = ([wgrid] : Store 3 3).getD 0 (gzero 3 3) ∧
      (stepper1_store [wgrid] 0 1 none).2 = ([wgrid] : Store 3 3).length ∧
      (stepper1_store [wgrid] 0 1 none).2 ≠ 0 ∧
      (stepper1_store [wgrid] 0 1 none).1.getD
          (stepper1_store [wgrid] 0 1 none).2 (gzero 3 3)
        = stepper1 (([wgrid] : Store 3 3).getD 0 (gzero 3 3)) 1 none) ∧
    ((stepper2_store [wgrid] 0 1 none).1.getD 0 (gzero 3 3)
        = ([wgrid] : Store 3 3).getD 0 (gzero 3 3) ∧
      (stepper2_store [wgrid] 0 1 none).2 = ([wgrid] : Store 3 3).length ∧
      (stepper2_store [wgrid] 0 1 none).2 ≠ 0 ∧
      (stepper2_store [wgrid] 0 1 none).1.getD
          (stepper2_store [wgrid] 0 1 none).2 (gzero 3 3)
        = stepper2 (([wgrid] : Store 3 3).getD 0 (gzero 3 3)) 1 none) ∧
    ((stepper3_store [wgrid] 0 1 none).1.getD 0 (gzero 3 3)
        = ([wgrid] : Store 3 3).getD 0 (gzero 3 3) ∧
      (stepper3_store [wgrid] 0 1 none).2 = ([wgrid] : Store 3 3).length ∧
      (stepper3_store [wgrid] 0 1 none).2 ≠ 0 ∧
      (stepper3_store [wgrid] 0 1 none).1.getD
          (stepper3_store [wgrid] 0 1 none).2 (gzero 3 3)
        = stepper3 (([wgrid] : Store 3 3).getD 0 (gzero 3 3)) 1 none) ∧
    ((stepper4_store [wgrid] 0 1 none).2 = 0 ∧
      (stepper4_store [wgrid] 0 1 none).1.getD 0 (gzero 3 3)
        = stepper4 (([wgrid] : Store 3 3).getD 0 (gzero 3 3)) 1 none) ∧
    ((gol_step_store (⟨[wgrid], 0, 0⟩ : GOLS 3 3) 1).store.getD 0 (gzero 3 3)
        = (⟨[wgrid], 0, 0⟩ : GOLS 3 3).store.getD 0 (gzero 3 3) ∧
      gol_get_grid (gol_step_store (⟨[wgrid], 0, 0⟩ : GOLS 3 3) 1)
        = (⟨[wgrid], 0, 0⟩ : GOLS 3 3).store.length ∧
      (gol_step_store (⟨[wgrid], 0, 0⟩ : GOLS 3 3) 1).store.getD
          (gol_get_grid (gol_step_store (⟨[wgrid], 0, 0⟩ : GOLS 3 3) 1))
          (gzero 3 3)
        = Nat.iterate lifeStep 1
            ((⟨[wgrid], 0, 0⟩ : GOLS 3 3).store.getD
              (gol_get_grid (⟨[wgrid], 0, 0⟩ : GOLS 3 3)) (gzero 3 3))) :=
  C10_mutation_discipline 3 3 [wgrid] 0 (by simp) 1 none
    ⟨[wgrid], 0, 0⟩ 0 (by simp)

end PHYS481
